import Mathlib

/-!
Shallow embedding of the LM-Studio integration core of the language-bot
repository (app/services/lm_studio.py, app/services/fallbacks.py,
app/prompts.py, app/schemas/__init__.py, app/routers/responses.py),
together with proofs of the specification's testable properties.

Python strings are modelled as `List Char` (for index arithmetic) or
`String`; Python numbers arising from `json.loads` are modelled by
`PyNum`: exact rationals for the standard JSON numerals, plus the
non-finite floats produced by the `NaN`/`Infinity`/`-Infinity` literals
that Python's decoder accepts by default, with IEEE comparison semantics
(`nan` compares false to everything).
-/

namespace LanguageBot

/-- A Python number as `json.loads` produces it: an exact rational for
the int/decimal-float numerals, or one of the non-finite floats `nan`,
`inf` and `-inf` that the decoder's default `parse_constant` admits via
the `NaN`/`Infinity`/`-Infinity` literals. -/
inductive PyNum where
  | rat (value : ℚ) : PyNum
  | nan : PyNum
  | inf (neg : Bool) : PyNum
deriving DecidableEq

/-- The values `json.loads` can produce: `None`, `bool`, numbers,
`str`, `list`, and `dict` (an insertion-ordered association list with
unique keys, as Python dicts are). -/
inductive Json where
  | null : Json
  | bool (value : Bool) : Json
  | num (value : PyNum) : Json
  | str (value : String) : Json
  | arr (items : List Json) : Json
  | obj (fields : List (String × Json)) : Json

/-- Whitespace accepted between JSON tokens (RFC 8259 / Python json). -/
def isJsonWs (c : Char) : Bool :=
  c == ' ' || c == '\t' || c == '\n' || c == '\r'

/-- Drop leading JSON whitespace. -/
def skipWs : List Char → List Char
  | [] => []
  | c :: cs => if isJsonWs c then skipWs cs else c :: cs

/-- Python `str.find(ch)`: index of the first occurrence, `none` for -1. -/
def findIdx (ch : Char) : List Char → Option Nat
  | [] => none
  | c :: cs => if c == ch then some 0 else (findIdx ch cs).map (· + 1)

/-- Python `str.rfind(ch)`: index of the last occurrence, `none` for -1. -/
def rfindIdx (ch : Char) : List Char → Option Nat
  | [] => none
  | c :: cs =>
    match rfindIdx ch cs with
    | some i => some (i + 1)
    | none => if c == ch then some 0 else none

/-- Python slice `s[a:b]` for `0 ≤ a, b` (empty when `b ≤ a`). -/
def slice (s : List Char) (a b : Nat) : List Char :=
  (s.drop a).take (b - a)

/-- Numeric value of a decimal digit character (code point minus 48). -/
def digitVal (c : Char) : Nat := c.toNat - 48

/-- Value of a list of decimal digit characters. -/
def digitsToNat (ds : List Char) : Nat :=
  ds.foldl (fun a c => 10 * a + digitVal c) 0

/-- Consume a fixed literal (used for `null`, `true`, `false`). -/
def dropLit : List Char → List Char → Option (List Char)
  | [], cs => some cs
  | l :: ls, c :: cs => if c == l then dropLit ls cs else none
  | _ :: _, [] => none

/-- Fraction digits of a JSON number (after the integer digits):
the digits following a `'.'`, or `[]` when there is no fraction. -/
def parseFracDigits : List Char → Option (List Char × List Char)
  | '.' :: r =>
    let p := r.span (·.isDigit)
    if p.1.isEmpty then none else some (p.1, p.2)
  | cs => some ([], cs)

/-- Exponent part of a JSON number, as a signed integer (0 if absent). -/
def parseExpVal : List Char → Option (ℤ × List Char)
  | [] => some (0, [])
  | c :: r =>
    if c == 'e' || c == 'E' then
      let sr : Bool × List Char :=
        match r with
        | '+' :: r2 => (false, r2)
        | '-' :: r2 => (true, r2)
        | _ => (false, r)
      let p := sr.2.span (·.isDigit)
      if p.1.isEmpty then none
      else
        let e : ℤ := (digitsToNat p.1 : ℤ)
        some (if sr.1 then -e else e, p.2)
    else some (0, c :: r)

/-- A JSON numeral (sign, integer digits without leading zeros, optional
fraction and exponent), as an exact rational `±m·10^e`.  Built with core
`mkRat`/`Int.pow`/`Nat.pow` so that concrete inputs evaluate by `rfl`. -/
def parseNumber (cs : List Char) : Option (ℚ × List Char) :=
  let sr : Bool × List Char :=
    match cs with
    | '-' :: r => (true, r)
    | _ => (false, cs)
  let p := sr.2.span (·.isDigit)
  if p.1.isEmpty then none
  else if 1 < p.1.length && p.1.headD '0' == '0' then none
  else do
    let fp ← parseFracDigits p.2
    let ep ← parseExpVal fp.2
    let k := fp.1.length
    let n0 : ℤ := ((digitsToNat p.1 * Nat.pow 10 k + digitsToNat fp.1 : ℕ) : ℤ)
    let mag : ℚ :=
      if 0 ≤ ep.1 then mkRat (n0 * Int.pow 10 ep.1.toNat) (Nat.pow 10 k)
      else mkRat n0 (Nat.pow 10 (k + (-ep.1).toNat))
    some (if sr.1 then Rat.neg mag else mag, ep.2)

/-- Hexadecimal digit value, for `\u` escapes (by code point ranges:
digits, lowercase a-f, uppercase A-F). -/
def hexVal (c : Char) : Option Nat :=
  let n := c.toNat
  if 48 ≤ n && n ≤ 57 then some (n - 48)
  else if 97 ≤ n && n ≤ 102 then some (n - 87)
  else if 65 ≤ n && n ≤ 70 then some (n - 55)
  else none

/-- Body of a JSON string after the opening quote; returns the decoded
string and the remaining input after the closing quote.  Fuel-indexed
(one unit per consumed character) so that it reduces in the kernel. -/
def parseStringBody : Nat → List Char → List Char → Option (String × List Char)
  | 0, _, _ => none
  | _ + 1, _, [] => none
  | _ + 1, acc, '"' :: rest => some (String.mk acc.reverse, rest)
  | fuel + 1, acc, '\\' :: rest =>
    match rest with
    | [] => none
    | e :: rest2 =>
      match e with
      | '"' => parseStringBody fuel ('"' :: acc) rest2
      | '\\' => parseStringBody fuel ('\\' :: acc) rest2
      | '/' => parseStringBody fuel ('/' :: acc) rest2
      | 'b' => parseStringBody fuel (Char.ofNat 8 :: acc) rest2
      | 'f' => parseStringBody fuel (Char.ofNat 12 :: acc) rest2
      | 'n' => parseStringBody fuel ('\n' :: acc) rest2
      | 'r' => parseStringBody fuel ('\r' :: acc) rest2
      | 't' => parseStringBody fuel ('\t' :: acc) rest2
      | 'u' =>
        match rest2 with
        | a :: b :: c :: d :: rest3 =>
          match hexVal a, hexVal b, hexVal c, hexVal d with
          | some ha, some hb, some hc, some hd =>
            parseStringBody fuel
              (Char.ofNat (((ha * 16 + hb) * 16 + hc) * 16 + hd) :: acc) rest3
          | _, _, _, _ => none
        | _ => none
      | _ => none
  | fuel + 1, acc, c :: rest => parseStringBody fuel (c :: acc) rest

/-- Python dict insertion: overwrite in place when the key exists
(keeping its position), append otherwise. -/
def insertMember : List (String × Json) → String → Json → List (String × Json)
  | [], k, v => [(k, v)]
  | m :: rest, k, v =>
    if m.1 == k then (k, v) :: rest else m :: insertMember rest k v

mutual

/-- One JSON value, fuel-indexed recursive descent (mirrors `json.loads`
on a prefix of the input). -/
def parseValue : Nat → List Char → Option (Json × List Char)
  | 0, _ => none
  | fuel + 1, cs =>
    match skipWs cs with
    | [] => none
    | 'n' :: r => (dropLit ['u', 'l', 'l'] r).map (fun rest => (Json.null, rest))
    | 't' :: r => (dropLit ['r', 'u', 'e'] r).map (fun rest => (Json.bool true, rest))
    | 'f' :: r => (dropLit ['a', 'l', 's', 'e'] r).map (fun rest => (Json.bool false, rest))
    | '"' :: r => (parseStringBody (r.length + 1) [] r).map (fun p => (Json.str p.1, p.2))
    | '\x7b' :: r => parseObjBody fuel r
    | '[' :: r => parseArrBody fuel r
    | 'N' :: r => (dropLit ['a', 'N'] r).map (fun rest => (Json.num PyNum.nan, rest))
    | 'I' :: r =>
      (dropLit ['n', 'f', 'i', 'n', 'i', 't', 'y'] r).map
        (fun rest => (Json.num (PyNum.inf false), rest))
    | '-' :: 'I' :: r =>
      (dropLit ['n', 'f', 'i', 'n', 'i', 't', 'y'] r).map
        (fun rest => (Json.num (PyNum.inf true), rest))
    | cs2 => (parseNumber cs2).map (fun p => (Json.num (PyNum.rat p.1), p.2))

/-- Object members after the opening brace. -/
def parseObjBody : Nat → List Char → Option (Json × List Char)
  | 0, _ => none
  | fuel + 1, cs =>
    match skipWs cs with
    | '\x7d' :: r => some (Json.obj [], r)
    | cs2 => parseMembers fuel cs2 []

/-- One `"key": value` member, then `,` (more members) or `}` (done). -/
def parseMembers : Nat → List Char → List (String × Json) → Option (Json × List Char)
  | 0, _, _ => none
  | fuel + 1, cs, acc =>
    match skipWs cs with
    | '"' :: r => do
      let kp ← parseStringBody (r.length + 1) [] r
      match skipWs kp.2 with
      | ':' :: r2 => do
        let vp ← parseValue fuel r2
        let acc2 := insertMember acc kp.1 vp.1
        match skipWs vp.2 with
        | ',' :: r3 => parseMembers fuel r3 acc2
        | '\x7d' :: r3 => some (Json.obj acc2, r3)
        | _ => none
      | _ => none
    | _ => none

/-- Array elements after the opening bracket. -/
def parseArrBody : Nat → List Char → Option (Json × List Char)
  | 0, _ => none
  | fuel + 1, cs =>
    match skipWs cs with
    | ']' :: r => some (Json.arr [], r)
    | cs2 => parseElems fuel cs2 []

/-- One array element, then `,` (more elements) or `]` (done). -/
def parseElems : Nat → List Char → List Json → Option (Json × List Char)
  | 0, _, _ => none
  | fuel + 1, cs, acc => do
    let vp ← parseValue fuel cs
    match skipWs vp.2 with
    | ',' :: r2 => parseElems fuel r2 (vp.1 :: acc)
    | ']' :: r2 => some (Json.arr (vp.1 :: acc).reverse, r2)
    | _ => none

end

/-- Python `json.loads`: one complete JSON value, optionally surrounded by
whitespace; anything else (including trailing data) fails.  The fuel
`3 * length + 8` dominates the recursion depth, which consumes at most
three units per input character. -/
def jsonDecode (cs : List Char) : Option Json :=
  match parseValue (3 * cs.length + 8) cs with
  | some (v, rest) => if (skipWs rest).isEmpty then some v else none
  | none => none

example : jsonDecode "\x7b\x7d".toList = some (Json.obj []) := by rfl
example : jsonDecode "".toList = none := by rfl
example : jsonDecode "\x7b\"score\": 12, \"feedback\": \"nice\"\x7d".toList
    = some (Json.obj [("score", Json.num (PyNum.rat 12)),
        ("feedback", Json.str "nice")]) := by rfl
example : jsonDecode "not json".toList = none := by rfl
example : jsonDecode "[1, 2.5, -3e1, true, null]".toList
    = some (Json.arr [Json.num (PyNum.rat 1), Json.num (PyNum.rat (mkRat 5 2)),
        Json.num (PyNum.rat (-30)), Json.bool true, Json.null]) := by rfl
example : jsonDecode "\x7b\"score\": NaN\x7d".toList
    = some (Json.obj [("score", Json.num PyNum.nan)]) := by rfl
example : jsonDecode "[Infinity, -Infinity]".toList
    = some (Json.arr [Json.num (PyNum.inf false), Json.num (PyNum.inf true)]) := by rfl

/-! ### Dictionary access on decoded objects -/

/-- Python `dict.get(k)` on a decoded object (keys are unique). -/
def dget (members : List (String × Json)) (k : String) : Option Json :=
  match members with
  | [] => none
  | m :: rest => if m.1 == k then some m.2 else dget rest k

/-- Python `dict.update`: merge `kvs` into `d` left to right, overwriting
values of existing keys in place and appending new keys. -/
def dictUpdate (d kvs : List (String × Json)) : List (String × Json) :=
  kvs.foldl (fun acc kv => insertMember acc kv.1 kv.2) d

/-! ### Python `str()` of a decoded JSON value

The evaluation parser applies `str(feedback)` to whatever the decoded
object holds.  We render it faithfully for the scalar cases (`None`,
booleans, ints, and decimal floats); for containers the elements are
rendered with `str` rather than `repr` (Python quotes nested strings; no
claim depends on container rendering, only on its non-emptiness). -/

/-- Decimal digit characters of `n` (most significant first); fuel-indexed,
`[]` for `n = 0`. -/
def natDigitsAux : Nat → Nat → List Char
  | 0, _ => []
  | fuel + 1, n =>
    if n = 0 then [] else natDigitsAux fuel (n / 10) ++ [Char.ofNat (48 + n % 10)]

/-- Python `str()` of a natural number. -/
def natRepr (n : Nat) : String :=
  if n = 0 then "0" else String.mk (natDigitsAux n n)

/-- Python `str()` of an integer. -/
def intRepr : ℤ → String
  | Int.ofNat n => natRepr n
  | Int.negSucc n => "-" ++ natRepr (n + 1)

/-- Count and remove the factors `p` of `n` (fuel-indexed). -/
def factorCount (p : Nat) : Nat → Nat → Nat × Nat
  | 0, n => (0, n)
  | fuel + 1, n =>
    if n % p == 0 && n != 0 then
      let r := factorCount p fuel (n / p)
      (r.1 + 1, r.2)
    else (0, n)

/-- Decimal digit characters of `m`, `"0"` included. -/
def natDigits (m : Nat) : List Char :=
  if m = 0 then ['0'] else natDigitsAux m m

/-- Left-pad a digit string with zeros to at least `k + 1` digits. -/
def padDigits (k : Nat) (raw : List Char) : List Char :=
  if raw.length ≤ k then List.replicate (k + 1 - raw.length) '0' ++ raw else raw

/-- Exact terminating decimal expansion of `q` with `k` fraction digits
(used when `q.den` divides `10^k`). -/
def ratDecimalRepr (q : ℚ) (k : Nat) : String :=
  let ds := padDigits k (natDigits (q.num.natAbs * Nat.pow 10 k / q.den))
  (if q.num < 0 then "-" else "")
    ++ String.mk (ds.take (ds.length - k)) ++ "." ++ String.mk (ds.drop (ds.length - k))

/-- Python `str()` of a float whose exact value is the rational `q`:
for a denominator `2^a·5^b` (every value a JSON numeral can denote) this
is the exact terminating decimal expansion; the final branch keeps the
function total. -/
def ratRepr (q : ℚ) : String :=
  if q.den = 1 then intRepr q.num ++ ".0"
  else
    let c2 := factorCount 2 q.den q.den
    let c5 := factorCount 5 c2.2 c2.2
    if c5.2 = 1 then ratDecimalRepr q (max c2.1 c5.1)
    else intRepr q.num ++ "/" ++ natRepr q.den

/-- Python `str()` of a decoder-produced number (`nan`, `inf` and
`-inf` are how Python prints the non-finite floats). -/
def pyNumRepr : PyNum → String
  | PyNum.rat q => ratRepr q
  | PyNum.nan => "nan"
  | PyNum.inf false => "inf"
  | PyNum.inf true => "-inf"

/-- Join rendered elements with `", "`. -/
def joinComma : List String → String
  | [] => ""
  | [s] => s
  | s :: rest => s ++ ", " ++ joinComma rest

/-- Python `str()` of a decoded JSON value, fuel-indexed on structure depth
(the callers pass the length of the text the value was decoded from,
which bounds its depth; with any positive fuel the rendering of the
outermost layer, all a proof ever inspects, is already exact). -/
def pyStrAux : Nat → Json → String
  | 0, _ => ""
  | fuel + 1, j =>
    match j with
    | Json.null => "None"
    | Json.bool true => "True"
    | Json.bool false => "False"
    | Json.num n => pyNumRepr n
    | Json.str s => s
    | Json.arr xs => "[" ++ joinComma (xs.map (pyStrAux fuel)) ++ "]"
    | Json.obj ms =>
      "\x7b" ++ joinComma (ms.map (fun m => m.1 ++ ": " ++ pyStrAux fuel m.2)) ++ "\x7d"

example : pyStrAux 1 (Json.str "nice") = "nice" := by rfl
example : pyStrAux 1 Json.null = "None" := by rfl
example : pyStrAux 1 (Json.num (PyNum.rat (mkRat 15 2))) = "7.5" := by rfl
example : pyStrAux 1 (Json.num (PyNum.rat 12)) = "12.0" := by rfl
example : pyStrAux 1 (Json.num PyNum.nan) = "nan" := by rfl

/-! ### Constants from `app/prompts.py` -/

def FALLBACK_SCENARIO_TITLE : String := "Fallback General Healthcare Communication"

def FALLBACK_SCENARIO_DESCRIPTION : String :=
  "Fallback senario description : Practice professional communication with a patient in a healthcare setting."

def FALLBACK_EVALUATION_SCORE : ℚ := 7

def FALLBACK_EVALUATION_FEEDBACK : String :=
  "This is a fallback evaluation response. Your response shows good communication effort. AI evaluation is temporarily unavailable, but your response has been saved for review."

/-! ### Fallback Provider (`app/services/fallbacks.py` and the identical
method copies in `app/services/lm_studio.py`)

The Python functions build the lookup dict as a fresh local literal on
every call and select with `dict.get(category, general)`, modelled here
by the equivalent conditional, then stamp the caller's category and
difficulty via `dict.update`. -/

/-- Source `fallbacks.get_simple_fallback_scenario`. -/
def get_simple_fallback_scenario (category difficulty : String) : List (String × Json) :=
  let base : List (String × Json) :=
    if category == "emergency" then
      [("title", Json.str "Emergency Communication"),
       ("description", Json.str "Practice communicating with a patient in an emergency setting.")]
    else if category == "routine" then
      [("title", Json.str "Routine Check-up"),
       ("description", Json.str "Practice communication during a regular patient visit.")]
    else
      [("title", Json.str FALLBACK_SCENARIO_TITLE),
       ("description", Json.str FALLBACK_SCENARIO_DESCRIPTION)]
  dictUpdate base
    [("category", Json.str category), ("difficulty", Json.str difficulty)]

/-- Source `LMStudioService._get_simple_fallback_scenario`, a verbatim copy of
the module-level function inside the service class. -/
def lmStudioGetSimpleFallbackScenario (category difficulty : String) : List (String × Json) :=
  let base : List (String × Json) :=
    if category == "emergency" then
      [("title", Json.str "Emergency Communication"),
       ("description", Json.str "Practice communicating with a patient in an emergency setting.")]
    else if category == "routine" then
      [("title", Json.str "Routine Check-up"),
       ("description", Json.str "Practice communication during a regular patient visit.")]
    else
      [("title", Json.str FALLBACK_SCENARIO_TITLE),
       ("description", Json.str FALLBACK_SCENARIO_DESCRIPTION)]
  dictUpdate base
    [("category", Json.str category), ("difficulty", Json.str difficulty)]

/-- The `{"score": float, "feedback": str}` record both evaluation paths
return (the score is a Python float, so it can be non-finite). -/
structure EvalOut where
  score : PyNum
  feedback : String
deriving DecidableEq

/-- Source `fallbacks.get_simple_fallback_evaluation`. -/
def get_simple_fallback_evaluation : EvalOut :=
  ⟨PyNum.rat FALLBACK_EVALUATION_SCORE, FALLBACK_EVALUATION_FEEDBACK⟩

/-- Source `LMStudioService._get_simple_fallback_evaluation` (verbatim copy). -/
def lmStudioGetSimpleFallbackEvaluation : EvalOut :=
  ⟨PyNum.rat FALLBACK_EVALUATION_SCORE, FALLBACK_EVALUATION_FEEDBACK⟩

/-! ### Response Parser (`lm_studio.py`) -/

/-- The extraction step of `_parse_simple_scenario_response`:
`start_idx = find('{')`, `end_idx = rfind('}') + 1` (which is 0, never -1,
when no `}` exists, so the source's `end_idx != -1` test is vacuously
true), then `json.loads` of the slice.  `none` stands for the raised
`ValueError` (no `{`) or `JSONDecodeError`, both caught in the same
method, and for a non-dict decode, whose `AttributeError` at the later
`.update`/`.get` escapes to the public operation's blanket handler —
every one of them ends in the same fallback (the non-dict case is in fact
unreachable: the decoded slice starts at a brace, so a successful decode
is a dict). -/
def scenarioJsonObject (response_text : List Char) : Option (List (String × Json)) :=
  match findIdx '\x7b' response_text with
  | none => none
  | some s =>
    let e : Nat :=
      match rfindIdx '\x7d' response_text with
      | none => 0
      | some i => i + 1
    match jsonDecode (slice response_text s e) with
    | some (Json.obj members) => some members
    | _ => none

/-- Source `LMStudioService._parse_simple_scenario_response`. -/
def parseSimpleScenarioResponse (response_text : List Char)
    (category difficulty : String) : List (String × Json) :=
  match scenarioJsonObject response_text with
  | some members =>
    dictUpdate members
      [("category", Json.str category), ("difficulty", Json.str difficulty)]
  | none => get_simple_fallback_scenario category difficulty

/-- The numeric value of a decoded JSON value in the sense of Python's
`isinstance(score, (int, float))` check: numbers count (finite or not),
and so do the booleans, because `bool` is a subclass of `int`
(`True == 1`, `False == 0`); everything else fails the check. -/
def pyNumeric : Json → Option PyNum
  | Json.num n => some n
  | Json.bool b => some (PyNum.rat (if b then 1 else 0))
  | _ => none

/-- Python `<` on decoder-produced numbers, with IEEE float semantics:
`nan` compares false to everything, and the infinities bound every
finite value. -/
def pyLt : PyNum → PyNum → Bool
  | PyNum.nan, _ => false
  | _, PyNum.nan => false
  | PyNum.inf true, PyNum.inf true => false
  | PyNum.inf true, _ => true
  | _, PyNum.inf true => false
  | PyNum.inf false, _ => false
  | PyNum.rat a, PyNum.rat b => Rat.blt a b
  | PyNum.rat _, PyNum.inf false => true

/-- The successful branch of `_parse_simple_evaluation_response`: read
`score`/`feedback` with defaults, reset a non-number (Python: anything
failing `isinstance(score, (int, float))`, where `bool` is a subclass of
`int`) or out-of-range score to 7.0, coerce feedback with `str()`.
Note that `nan`, passing the `isinstance` check while comparing false
to both bounds of `score < 1 or score > 10`, survives the reset and is
returned as-is. -/
def evalFromMembers (response_text : List Char)
    (members : List (String × Json)) : EvalOut :=
  let score := (dget members "score").getD (Json.num (PyNum.rat 7))
  let feedback := (dget members "feedback").getD (Json.str "Good communication effort.")
  let n : PyNum :=
    match pyNumeric score with
    | none => PyNum.rat 7
    | some n0 =>
      if pyLt n0 (PyNum.rat 1) || pyLt (PyNum.rat 10) n0 then PyNum.rat 7 else n0
  ⟨n, pyStrAux (response_text.length + 1) feedback⟩

/-- The extraction step of `_parse_simple_evaluation_response`; unlike
its scenario twin this parser guards with `start_idx >= 0 and
end_idx > start_idx` before decoding.  `none` covers the raised
`ValueError`, a `JSONDecodeError`, and the unreachable non-dict decode
(see `scenarioJsonObject`), all of which end in the fallback. -/
def evalJsonObject (response_text : List Char) : Option (List (String × Json)) :=
  match findIdx '\x7b' response_text with
  | none => none
  | some s =>
    let e : Nat :=
      match rfindIdx '\x7d' response_text with
      | none => 0
      | some i => i + 1
    if s < e then
      match jsonDecode (slice response_text s e) with
      | some (Json.obj members) => some members
      | _ => none
    else none

/-- Source `LMStudioService._parse_simple_evaluation_response`. -/
def parseSimpleEvaluationResponse (response_text : List Char) : EvalOut :=
  match evalJsonObject response_text with
  | some members => evalFromMembers response_text members
  | none => get_simple_fallback_evaluation

/-! ### Completion Client boundary (`generate_scenario` / `evaluate_response`)

`_make_request` either raises (timeout, non-2xx status, transport error —
all becoming `LMStudioError`) or returns the decoded JSON body; the
outcome of one call is modelled by `Upstream`.  Both public operations
wrap everything after the request in a blanket `except Exception` that
returns the fallback. -/

inductive Upstream where
  | failure : Upstream
  | reply (body : Json) : Upstream

/-- The read `response["choices"][0]["message"]["content"]` followed by
the string use of the result: `some` exactly on bodies of the shape
`{choices: [{message: {content: string}}, ...]}`.  Any other shape makes
one of the subscripts (or the later `.find` on a non-string) raise, which
the blanket handler of the public operation converts to the fallback. -/
def extractContent : Json → Option String
  | Json.obj ms =>
    match dget ms "choices" with
    | some (Json.arr (c :: _)) =>
      match c with
      | Json.obj cm =>
        match dget cm "message" with
        | some (Json.obj mm) =>
          match dget mm "content" with
          | some (Json.str s) => some s
          | _ => none
        | _ => none
      | _ => none
    | _ => none
  | _ => none

/-- Source `LMStudioService.generate_scenario`.  The prompt construction cannot
fail and does not influence the returned value, so the embedding keeps
only the upstream outcome. -/
def generate_scenario (category difficulty : String) (upstream : Upstream) :
    List (String × Json) :=
  match upstream with
  | Upstream.failure => get_simple_fallback_scenario category difficulty
  | Upstream.reply body =>
    match extractContent body with
    | none => get_simple_fallback_scenario category difficulty
    | some content => parseSimpleScenarioResponse content.toList category difficulty

/-- Source `LMStudioService.evaluate_response`.  The `scenario` and
`user_response` arguments only shape the prompt and never influence the
returned value, so the embedding keeps only the upstream outcome. -/
def evaluate_response (upstream : Upstream) : EvalOut :=
  match upstream with
  | Upstream.failure => get_simple_fallback_evaluation
  | Upstream.reply body =>
    match extractContent body with
    | none => get_simple_fallback_evaluation
    | some content => parseSimpleEvaluationResponse content.toList

/-- The decoded JSON value sitting in the `feedback` slot of an
evaluation reply (after the parser's defaulting), when the reply reaches
the successful parse branch at all; used to state exactly when
`evaluate_response` can return an empty feedback string. -/
def evalFeedbackField (upstream : Upstream) : Option Json :=
  match upstream with
  | Upstream.failure => none
  | Upstream.reply body =>
    match extractContent body with
    | none => none
    | some content =>
      match evalJsonObject content.toList with
      | some members =>
        some ((dget members "feedback").getD (Json.str "Good communication effort."))
      | none => none

/-- The decoded JSON value sitting in the `score` slot of an evaluation
reply (after the parser's defaulting), when the reply reaches the
successful parse branch at all; used to state exactly when
`evaluate_response` can return the non-finite score `nan`. -/
def evalScoreField (upstream : Upstream) : Option Json :=
  match upstream with
  | Upstream.failure => none
  | Upstream.reply body =>
    match extractContent body with
    | none => none
    | some content =>
      match evalJsonObject content.toList with
      | some members => some ((dget members "score").getD (Json.num (PyNum.rat 7)))
      | none => none

/-! ### The parsing strategy in the words of the specification

(for the refinement claim about the parser: "locate the first `{` and the
last `}`; if either is absent, or the substring fails decoding, fall
back") -/

/-- The substring from the first `{` to the last `}` (empty when either
is absent or they are in the wrong order). -/
def claimSpan (text : List Char) : List Char :=
  match findIdx '\x7b' text, rfindIdx '\x7d' text with
  | some s, some r => slice text s (r + 1)
  | _, _ => []

/-- Modelled from the spec: the scenario parser as the specification
words it. -/
def claimParseScenario (text : List Char) (category difficulty : String) :
    List (String × Json) :=
  match findIdx '\x7b' text, rfindIdx '\x7d' text with
  | some _, some _ =>
    match jsonDecode (claimSpan text) with
    | some (Json.obj members) =>
      dictUpdate members
        [("category", Json.str category), ("difficulty", Json.str difficulty)]
    | _ => get_simple_fallback_scenario category difficulty
  | _, _ => get_simple_fallback_scenario category difficulty

/-- Modelled from the spec: the evaluation parser as the specification
words it. -/
def claimParseEval (text : List Char) : EvalOut :=
  match findIdx '\x7b' text, rfindIdx '\x7d' text with
  | some _, some _ =>
    match jsonDecode (claimSpan text) with
    | some (Json.obj members) => evalFromMembers text members
    | _ => get_simple_fallback_evaluation
  | _, _ => get_simple_fallback_evaluation

/-- Modelled from the claim's words (as amended): the score returned for
a successfully decoded evaluation object — the decoded value when it is
numeric (booleans counting as their integer values 1/0) and lies in the
closed interval [1, 10]; `nan` itself when the score field is the `NaN`
literal, which fails both range comparisons and is kept; and the default
7.0 otherwise (absent, non-numeric non-boolean, or comparably out of
range, the infinities included). -/
def claimScoreSpec (members : List (String × Json)) : PyNum :=
  match dget members "score" with
  | some v =>
    match pyNumeric v with
    | some (PyNum.rat q) => if 1 ≤ q ∧ q ≤ 10 then PyNum.rat q else PyNum.rat 7
    | some PyNum.nan => PyNum.nan
    | some (PyNum.inf _) => PyNum.rat 7
    | none => PyNum.rat 7
  | none => PyNum.rat 7

/-! ### Request validation (`app/schemas/__init__.py`, `ResponseRequest`) -/

/-- The characters Python `str.strip()` removes. -/
def isPySpace (c : Char) : Bool :=
  c == ' ' || c == '\t' || c == '\n' || c == '\r'
    || c == Char.ofNat 11 || c == Char.ofNat 12

/-- Python `str.strip()`. -/
def pyStrip (s : List Char) : List Char :=
  ((s.dropWhile isPySpace).reverse.dropWhile isPySpace).reverse

/-- Whether `ResponseRequest` accepts `response_text`: pydantic checks
`min_length=10` and `max_length=2000` on the raw value before the field
validator, which then requires `len(v.strip()) >= 10` (and stores the
stripped value). -/
def responseTextAccepted (response_text : List Char) : Bool :=
  decide (10 ≤ response_text.length) && decide (response_text.length ≤ 2000)
    && decide (10 ≤ (pyStrip response_text).length)

/-! ### Response submission (`app/routers/responses.py`, `submit_response`)

The relational store is modelled by in-memory tables; `new_id` stands for
the generated `str(uuid.uuid4())`, and `EvalStep` for the outcome of the
inner `try` block (the `evaluate_response` call plus the score/feedback
update and its commit). -/

structure ScenarioRow where
  id : String
  title : String
  description : String
  category : String
  difficulty : String
deriving DecidableEq

structure ResponseRow where
  id : String
  scenario_id : String
  response_text : String
  score : Option ℚ
  feedback : Option String
deriving DecidableEq

structure Db where
  scenarios : List ScenarioRow
  responses : List ResponseRow
deriving DecidableEq

inductive EvalStep where
  | ok (score : ℚ) (feedback : String) : EvalStep
  | failed : EvalStep
deriving DecidableEq

inductive SubmitOutcome where
  | created (row : ResponseRow) (db : Db) : SubmitOutcome
  | notFound (db : Db) : SubmitOutcome
deriving DecidableEq

/-- Source `submit_response`: look up the scenario (404 when absent, store
untouched), insert and commit the response row, then try to evaluate;
on evaluation success the row is updated with score/feedback, on any
evaluation failure the warning path keeps the committed row as is. -/
def submit_response (db : Db) (scenario_id response_text new_id : String)
    (ev : EvalStep) : SubmitOutcome :=
  match db.scenarios.find? (fun s => s.id == scenario_id) with
  | none => SubmitOutcome.notFound db
  | some _ =>
    let row : ResponseRow := ⟨new_id, scenario_id, response_text, none, none⟩
    let db1 : Db := ⟨db.scenarios, db.responses ++ [row]⟩
    match ev with
    | EvalStep.ok s f =>
      let row2 : ResponseRow := ⟨new_id, scenario_id, response_text, some s, some f⟩
      SubmitOutcome.created row2
        ⟨db1.scenarios, db1.responses.map (fun r => if r.id == new_id then row2 else r)⟩
    | EvalStep.failed => SubmitOutcome.created row db1

/-! ## Helper lemmas -/

theorem dget_insertMember_self (d : List (String × Json)) (k : String) (v : Json) :
    dget (insertMember d k v) k = some v := by
  induction d with
  | nil => simp [insertMember, dget]
  | cons m rest ih =>
    by_cases h : m.1 == k
    · simp [insertMember, h, dget]
    · simp [insertMember, h, dget, ih]

theorem dget_insertMember_ne (d : List (String × Json)) (k : String) (v : Json)
    (k2 : String) (h : k2 ≠ k) :
    dget (insertMember d k v) k2 = dget d k2 := by
  have hkk : ¬ (k = k2) := fun hc => h hc.symm
  induction d with
  | nil => simp [insertMember, dget, beq_iff_eq, hkk]
  | cons m rest ih =>
    by_cases hm : m.1 == k
    · have hmk : m.1 = k := by simpa [beq_iff_eq] using hm
      simp [insertMember, hm, dget, beq_iff_eq, hkk, hmk]
    · simp [insertMember, hm, dget, ih]

theorem dget_update_category (d : List (String × Json)) (x y : Json) :
    dget (dictUpdate d [("category", x), ("difficulty", y)]) "category" = some x := by
  unfold dictUpdate
  simp only [List.foldl]
  rw [dget_insertMember_ne _ _ _ _ (by decide)]
  exact dget_insertMember_self d "category" x

theorem dget_update_difficulty (d : List (String × Json)) (x y : Json) :
    dget (dictUpdate d [("category", x), ("difficulty", y)]) "difficulty" = some y := by
  unfold dictUpdate
  simp only [List.foldl]
  exact dget_insertMember_self _ "difficulty" y

theorem dget_update_other (d : List (String × Json)) (x y : Json) (k : String)
    (h1 : k ≠ "category") (h2 : k ≠ "difficulty") :
    dget (dictUpdate d [("category", x), ("difficulty", y)]) k = dget d k := by
  unfold dictUpdate
  simp only [List.foldl]
  rw [dget_insertMember_ne _ _ _ _ h2, dget_insertMember_ne _ _ _ _ h1]

theorem str_ne_empty_of_data {s : String} (h : s.data ≠ []) : s ≠ "" :=
  fun hc => h (congrArg String.data hc)

theorem natDigitsAux_ne_nil (fuel n : Nat) (h : n ≠ 0) :
    natDigitsAux (fuel + 1) n ≠ [] := by
  simp [natDigitsAux, h]

theorem natRepr_ne_empty (n : Nat) : natRepr n ≠ "" := by
  unfold natRepr
  split
  · decide
  · rename_i h
    cases n with
    | zero => exact absurd rfl h
    | succ m =>
      intro hc
      exact natDigitsAux_ne_nil m (m + 1) (Nat.succ_ne_zero m) (congrArg String.data hc)

theorem intRepr_ne_empty (i : ℤ) : intRepr i ≠ "" := by
  cases i with
  | ofNat n => exact natRepr_ne_empty n
  | negSucc n =>
    apply str_ne_empty_of_data
    rw [intRepr, String.data_append]
    simp

theorem ratDecimalRepr_ne_empty (q : ℚ) (k : Nat) : ratDecimalRepr q k ≠ "" := by
  apply str_ne_empty_of_data
  show ((if q.num < 0 then "-" else "")
      ++ String.mk _ ++ "." ++ String.mk _).data ≠ []
  rw [String.data_append, String.data_append, String.data_append]
  simp

theorem ratRepr_ne_empty (q : ℚ) : ratRepr q ≠ "" := by
  unfold ratRepr
  split
  · apply str_ne_empty_of_data
    rw [String.data_append]
    simp
  · dsimp only
    split
    · exact ratDecimalRepr_ne_empty _ _
    · apply str_ne_empty_of_data
      rw [String.data_append, String.data_append]
      simp

theorem pyNumRepr_ne_empty (n : PyNum) : pyNumRepr n ≠ "" := by
  cases n with
  | rat q => exact ratRepr_ne_empty q
  | nan => decide
  | inf neg => cases neg <;> decide

theorem pyStrAux_eq_empty {fuel : Nat} {j : Json}
    (h : pyStrAux (fuel + 1) j = "") : j = Json.str "" := by
  match j with
  | Json.str s => rw [show pyStrAux (fuel + 1) (Json.str s) = s from rfl] at h; rw [h]
  | Json.null =>
    rw [show pyStrAux (fuel + 1) Json.null = "None" from rfl] at h
    exact absurd h (by decide)
  | Json.bool true =>
    rw [show pyStrAux (fuel + 1) (Json.bool true) = "True" from rfl] at h
    exact absurd h (by decide)
  | Json.bool false =>
    rw [show pyStrAux (fuel + 1) (Json.bool false) = "False" from rfl] at h
    exact absurd h (by decide)
  | Json.num n => exact absurd h (pyNumRepr_ne_empty n)
  | Json.arr xs =>
    exact absurd h (str_ne_empty_of_data (by
      rw [show (pyStrAux (fuel + 1) (Json.arr xs)).data
            = ("[" ++ joinComma (xs.map (pyStrAux fuel)) ++ "]").data from rfl]
      rw [String.data_append, String.data_append]
      simp))
  | Json.obj ms =>
    exact absurd h (str_ne_empty_of_data (by
      rw [show (pyStrAux (fuel + 1) (Json.obj ms)).data
            = ("\x7b" ++ joinComma (ms.map (fun m => m.1 ++ ": " ++ pyStrAux fuel m.2))
                ++ "\x7d").data from rfl]
      rw [String.data_append, String.data_append]
      simp))

theorem blt_false_le {a b : ℚ} (h : Rat.blt a b = false) : b ≤ a := by
  have hnl : ¬ a < b := by
    intro hlt
    have ht : Rat.blt a b = true := hlt
    rw [ht] at h
    exact Bool.noConfusion h
  exact not_lt.mp hnl

theorem pyStrip_length_le (s : List Char) : (pyStrip s).length ≤ s.length := by
  unfold pyStrip
  rw [List.length_reverse]
  calc ((s.dropWhile isPySpace).reverse.dropWhile isPySpace).length
      ≤ (s.dropWhile isPySpace).reverse.length :=
        (List.dropWhile_sublist _).length_le
    _ = (s.dropWhile isPySpace).length := List.length_reverse _
    _ ≤ s.length := (List.dropWhile_sublist _).length_le

theorem dropWhile_replicate_space (n : Nat) (t : List Char) :
    (List.replicate n ' ' ++ t).dropWhile isPySpace = t.dropWhile isPySpace := by
  induction n with
  | zero => rfl
  | succ m ih => simp [List.replicate_succ, List.dropWhile_cons, isPySpace, ih]

theorem jsonDecode_nil : jsonDecode [] = none := rfl

theorem slice_end_zero (s : List Char) (a : Nat) : slice s a 0 = [] := by
  simp [slice]

theorem slice_of_le (s : List Char) {a b : Nat} (h : b ≤ a) : slice s a b = [] := by
  simp [slice, Nat.sub_eq_zero_of_le h]

theorem fallback_scenario_echo (category difficulty : String) :
    dget (get_simple_fallback_scenario category difficulty) "category"
        = some (Json.str category)
    ∧ dget (get_simple_fallback_scenario category difficulty) "difficulty"
        = some (Json.str difficulty) := by
  unfold get_simple_fallback_scenario
  exact ⟨dget_update_category _ _ _, dget_update_difficulty _ _ _⟩

theorem fallback_scenario_title_desc (category difficulty : String) :
    (∃ t, dget (get_simple_fallback_scenario category difficulty) "title"
        = some (Json.str t) ∧ t ≠ "")
    ∧ (∃ d, dget (get_simple_fallback_scenario category difficulty) "description"
        = some (Json.str d) ∧ d ≠ "") := by
  unfold get_simple_fallback_scenario
  dsimp only
  constructor
  · rw [dget_update_other _ _ _ _ (by decide) (by decide)]
    split
    · exact ⟨_, rfl, by decide⟩
    · split
      · exact ⟨_, rfl, by decide⟩
      · exact ⟨_, rfl, by decide⟩
  · rw [dget_update_other _ _ _ _ (by decide) (by decide)]
    split
    · exact ⟨_, rfl, by decide⟩
    · split
      · exact ⟨_, rfl, by decide⟩
      · exact ⟨_, rfl, by decide⟩

theorem generate_scenario_echo (category difficulty : String) (upstream : Upstream) :
    dget (generate_scenario category difficulty upstream) "category"
        = some (Json.str category)
    ∧ dget (generate_scenario category difficulty upstream) "difficulty"
        = some (Json.str difficulty) := by
  cases upstream with
  | failure => exact fallback_scenario_echo _ _
  | reply body =>
    simp only [generate_scenario]
    cases hc : extractContent body with
    | none => exact fallback_scenario_echo _ _
    | some content =>
      simp only [parseSimpleScenarioResponse]
      cases hs : scenarioJsonObject content.toList with
      | none => exact fallback_scenario_echo _ _
      | some ms => exact ⟨dget_update_category _ _ _, dget_update_difficulty _ _ _⟩

theorem pyLt_rat (a b : ℚ) : pyLt (PyNum.rat a) (PyNum.rat b) = Rat.blt a b := rfl

theorem pyNumeric_nan {v : Json} (h : pyNumeric v = some PyNum.nan) :
    v = Json.num PyNum.nan := by
  cases v with
  | num n =>
    have hn : n = PyNum.nan := by simpa [pyNumeric] using h
    rw [hn]
  | bool b => cases b <;> simp [pyNumeric] at h
  | null => simp [pyNumeric] at h
  | str s => simp [pyNumeric] at h
  | arr xs => simp [pyNumeric] at h
  | obj ms => simp [pyNumeric] at h

theorem evalFromMembers_score (text : List Char) (ms : List (String × Json)) :
    (∃ q, (evalFromMembers text ms).score = PyNum.rat q ∧ 1 ≤ q ∧ q ≤ 10)
    ∨ ((evalFromMembers text ms).score = PyNum.nan
        ∧ (dget ms "score").getD (Json.num (PyNum.rat 7)) = Json.num PyNum.nan) := by
  unfold evalFromMembers
  dsimp only
  cases hn : pyNumeric ((dget ms "score").getD (Json.num (PyNum.rat 7))) with
  | none => exact Or.inl ⟨7, rfl, by norm_num⟩
  | some n0 =>
    dsimp only
    cases n0 with
    | nan => exact Or.inr ⟨rfl, pyNumeric_nan hn⟩
    | inf neg => cases neg <;> exact Or.inl ⟨7, rfl, by norm_num⟩
    | rat q0 =>
      simp only [pyLt_rat]
      by_cases hb : (Rat.blt q0 1 || Rat.blt 10 q0) = true
      · refine Or.inl ⟨7, ?_, by norm_num⟩
        simp [hb]
      · have hb2 : (Rat.blt q0 1 || Rat.blt 10 q0) = false := by
          revert hb
          cases Rat.blt q0 1 <;> cases Rat.blt 10 q0 <;> simp
        have h1 : Rat.blt q0 1 = false := by
          revert hb2
          cases Rat.blt q0 1 <;> simp
        have h2 : Rat.blt 10 q0 = false := by
          revert hb2
          cases Rat.blt 10 q0 <;> simp
        refine Or.inl ⟨q0, ?_, blt_false_le h1, blt_false_le h2⟩
        simp [hb2]

/-! ## Claims -/

/-- Claim C1, counterexample: the claim asserts a non-empty title for
every upstream outcome, but when the completion succeeds with the
perfectly parseable reply content `"{}"`, the returned record carries no
title at all — the parser returns the decoded object's own fields as-is
and only stamps category/difficulty onto it. -/
theorem c1_counterexample :
    dget
      (generate_scenario "general" "beginner"
        (Upstream.reply
          (Json.obj
            [("choices",
              Json.arr
                [Json.obj
                  [("message", Json.obj [("content", Json.str "\x7b\x7d")])]])])))
      "title" = none := by rfl

/-- Claim C1, amended: for every category, difficulty and upstream
outcome, `generate_scenario` echoes the exact category and difficulty
passed in; its title and description are the non-empty fallback texts
whenever the upstream call fails or the reply is unparseable, but a
successfully parsed JSON object contributes exactly its own fields, so
title/description may be absent or empty in that case. -/
theorem c1_scenario_echo_and_fallback_nonempty
    (category difficulty : String) (upstream : Upstream) :
    dget (generate_scenario category difficulty upstream) "category"
        = some (Json.str category)
    ∧ dget (generate_scenario category difficulty upstream) "difficulty"
        = some (Json.str difficulty)
    ∧ (∃ t, dget (get_simple_fallback_scenario category difficulty) "title"
        = some (Json.str t) ∧ t ≠ "")
    ∧ (∃ d, dget (get_simple_fallback_scenario category difficulty) "description"
        = some (Json.str d) ∧ d ≠ "") :=
  ⟨(generate_scenario_echo category difficulty upstream).1,
   (generate_scenario_echo category difficulty upstream).2,
   (fallback_scenario_title_desc category difficulty).1,
   (fallback_scenario_title_desc category difficulty).2⟩

/-- Claim C2, counterexample: the claim asserts, for every upstream
reply, a score in [1.0, 10.0] and a non-empty feedback string, and both
parts fail.  A well-formed reply carrying `"feedback": ""` passes the
empty string straight through (`str("")` is `""` and no emptiness check
exists), and a reply carrying `"score": NaN` — a literal Python's
`json.loads` accepts by default — passes the `isinstance` check while
comparing false to both bounds of `score < 1 or score > 10`, so the
returned score is `nan`, which lies in no interval. -/
theorem c2_counterexample :
    (evaluate_response
      (Upstream.reply
        (Json.obj
          [("choices",
            Json.arr
              [Json.obj
                [("message",
                  Json.obj
                    [("content",
                      Json.str "\x7b\"score\": 5, \"feedback\": \"\"\x7d")])]])]))).feedback
      = ""
    ∧ (evaluate_response
      (Upstream.reply
        (Json.obj
          [("choices",
            Json.arr
              [Json.obj
                [("message",
                  Json.obj
                    [("content",
                      Json.str "\x7b\"score\": NaN, \"feedback\": \"x\"\x7d")])]])]))).score
      = PyNum.nan :=
  ⟨by rfl, by rfl⟩

/-- Claim C2, amended: `evaluate_response` returns a score in the closed
interval [1, 10] in every case except when the reply decodes to a JSON
object whose score field is the `NaN` literal, which passes the
`isinstance` check, compares false to both range bounds and is returned
as `nan`; its feedback string is non-empty in every case except when the
decoded feedback field renders to the empty string — which only the
empty string itself does — in which case the empty feedback is returned
unchanged. -/
theorem c2_score_in_range_and_feedback (upstream : Upstream) :
    ((∃ q, (evaluate_response upstream).score = PyNum.rat q ∧ 1 ≤ q ∧ q ≤ 10)
      ∨ ((evaluate_response upstream).score = PyNum.nan
          ∧ evalScoreField upstream = some (Json.num PyNum.nan)))
    ∧ ((evaluate_response upstream).feedback = ""
        → evalFeedbackField upstream = some (Json.str "")) := by
  have hfb : ∃ q, get_simple_fallback_evaluation.score = PyNum.rat q
      ∧ 1 ≤ q ∧ q ≤ 10 := ⟨7, rfl, by norm_num⟩
  have hfbne : get_simple_fallback_evaluation.feedback ≠ "" := by decide
  cases upstream with
  | failure => exact ⟨Or.inl hfb, fun h => absurd h hfbne⟩
  | reply body =>
    simp only [evaluate_response, evalFeedbackField, evalScoreField]
    cases hc : extractContent body with
    | none => exact ⟨Or.inl hfb, fun h => absurd h hfbne⟩
    | some content =>
      simp only [parseSimpleEvaluationResponse]
      cases ho : evalJsonObject content.toList with
      | none => exact ⟨Or.inl hfb, fun h => absurd h hfbne⟩
      | some ms =>
        refine ⟨?_, fun h => ?_⟩
        · rcases evalFromMembers_score content.toList ms with hin | ⟨hnan, hfield⟩
          · exact Or.inl hin
          · refine Or.inr ⟨hnan, ?_⟩
            show some ((dget ms "score").getD (Json.num (PyNum.rat 7)))
                = some (Json.num PyNum.nan)
            rw [hfield]
        · have h2 : pyStrAux (content.toList.length + 1)
              ((dget ms "feedback").getD (Json.str "Good communication effort.")) = "" := h
          show some ((dget ms "feedback").getD (Json.str "Good communication effort."))
              = some (Json.str "")
          rw [pyStrAux_eq_empty h2]

/-- Claim C2, witness: a concrete reply carrying `"feedback": ""`
satisfies the hypothesis of the amended theorem's conditional part, and
the conclusion identifies the decoded feedback field as the empty
string. -/
theorem c2_witness :
    evalFeedbackField
      (Upstream.reply
        (Json.obj
          [("choices",
            Json.arr
              [Json.obj
                [("message",
                  Json.obj
                    [("content",
                      Json.str "\x7b\"score\": 4, \"feedback\": \"\"\x7d")])]])]))
      = some (Json.str "") :=
  (c2_score_in_range_and_feedback _).2 (by rfl)

/-- Claim C3, counterexample: the claim's "non-numeric type or out of
range yields 7.0" fails twice.  A JSON boolean passes the
`isinstance(score, (int, float))` check (Python's `bool` is a subclass
of `int`), so `{"score": true}` yields 1.0, not 7.0; and the decoded
score `NaN`, though it lies in no interval, fails both comparisons of
the range check and is returned as `nan`, not 7.0. -/
theorem c3_counterexample :
    ((parseSimpleEvaluationResponse "\x7b\"score\": true\x7d".toList).score
        = PyNum.rat 1
      ∧ (parseSimpleEvaluationResponse "\x7b\"score\": true\x7d".toList).score
        ≠ PyNum.rat 7)
    ∧ (parseSimpleEvaluationResponse "\x7b\"score\": NaN\x7d".toList).score
        = PyNum.nan :=
  ⟨⟨by rfl,
    by rw [show (parseSimpleEvaluationResponse "\x7b\"score\": true\x7d".toList).score
        = PyNum.rat 1 from rfl]; decide⟩,
   by rfl⟩

/-- Claim C3, amended: when the evaluation parser successfully decodes a
JSON object, the returned score equals the decoded score if that value
is numeric — with booleans counting as their integer values 1/0 — and
lies in [1, 10]; equals the decoded `nan` itself when the score field is
the `NaN` literal, which fails both range comparisons and is kept as-is;
and equals the default 7.0 whenever the score field is absent, of
non-numeric non-boolean type, or comparably out of range (a decoded 12
or an infinity yields 7.0, `true` yields 1.0). -/
theorem c3_score_spec (text : List Char) (ms : List (String × Json))
    (h : evalJsonObject text = some ms) :
    (parseSimpleEvaluationResponse text).score = claimScoreSpec ms := by
  unfold parseSimpleEvaluationResponse
  rw [h]
  unfold evalFromMembers claimScoreSpec
  dsimp only
  cases hd : dget ms "score" with
  | none => rfl
  | some v =>
    dsimp only [Option.getD]
    cases hv : pyNumeric v with
    | none => rfl
    | some n =>
      cases n with
      | nan => rfl
      | inf neg => cases neg <;> rfl
      | rat q =>
        dsimp only
        simp only [pyLt_rat]
        by_cases h1 : Rat.blt q 1 = true
        · have hq : q < 1 := h1
          have hnr : ¬ (1 ≤ q ∧ q ≤ 10) := fun ⟨ha, _⟩ => absurd hq (not_lt.mpr ha)
          simp [h1, hnr]
        · have h1f : Rat.blt q 1 = false := by
            revert h1; cases Rat.blt q 1 <;> simp
          by_cases h2 : Rat.blt 10 q = true
          · have hq : 10 < q := h2
            have hnr : ¬ (1 ≤ q ∧ q ≤ 10) := fun ⟨_, hb⟩ => absurd hq (not_lt.mpr hb)
            simp [h1f, h2, hnr]
          · have h2f : Rat.blt 10 q = false := by
              revert h2; cases Rat.blt 10 q <;> simp
            have hr : 1 ≤ q ∧ q ≤ 10 := ⟨blt_false_le h1f, blt_false_le h2f⟩
            simp [h1f, h2f, hr]

/-- Claim C3, witness: the amended theorem applied to the concrete reply
text `{"score": 2.5}`, whose extraction hypothesis holds by computation;
both sides evaluate to the decoded in-range score 2.5. -/
theorem c3_witness :
    (parseSimpleEvaluationResponse "\x7b\"score\": 2.5\x7d".toList).score
        = claimScoreSpec [("score", Json.num (PyNum.rat (mkRat 5 2)))] :=
  c3_score_spec "\x7b\"score\": 2.5\x7d".toList
    [("score", Json.num (PyNum.rat (mkRat 5 2)))] (by rfl)

/-- Claim C6: for category `"emergency"` and difficulty `"beginner"`,
when the completion endpoint is unreachable the returned scenario has
the fixed fallback title `"Emergency Communication"` and difficulty
`"beginner"`. -/
theorem c6_emergency_fallback :
    dget (generate_scenario "emergency" "beginner" Upstream.failure) "title"
        = some (Json.str "Emergency Communication")
    ∧ dget (generate_scenario "emergency" "beginner" Upstream.failure) "difficulty"
        = some (Json.str "beginner") :=
  ⟨by rfl, by rfl⟩

/-- Claim C9: the completion client reads exactly
`choices[0].message.content`; every reply body of any other shape makes
that read (or the string use of its result) fail, and the failure is
caught at the boundary of `generate_scenario`/`evaluate_response` and
converted into the Fallback Provider's output, never surfaced. -/
theorem c9_malformed_reply_uses_fallback (category difficulty : String)
    (body : Json) (h : extractContent body = none) :
    generate_scenario category difficulty (Upstream.reply body)
        = get_simple_fallback_scenario category difficulty
    ∧ evaluate_response (Upstream.reply body) = get_simple_fallback_evaluation := by
  constructor
  · simp only [generate_scenario, h]
  · simp only [evaluate_response, h]

/-- Claim C9, witness: a reply with an empty `choices` list is rejected
by the shape check and both public operations fall back. -/
theorem c9_witness :
    generate_scenario "general" "beginner"
        (Upstream.reply (Json.obj [("choices", Json.arr [])]))
        = get_simple_fallback_scenario "general" "beginner"
    ∧ evaluate_response (Upstream.reply (Json.obj [("choices", Json.arr [])]))
        = get_simple_fallback_evaluation :=
  c9_malformed_reply_uses_fallback "general" "beginner"
    (Json.obj [("choices", Json.arr [])]) (by rfl)

/-- Claim C10: when `submit_response` is called with a scenario id for
which no scenario exists, it fails with the 404 outcome, the store is
left unchanged, and the evaluation step is never consulted (the result
is the same for every evaluation outcome). -/
theorem c10_unknown_scenario_404 (db : Db) (scenario_id response_text new_id : String)
    (ev : EvalStep) (h : db.scenarios.find? (fun s => s.id == scenario_id) = none) :
    submit_response db scenario_id response_text new_id ev
        = SubmitOutcome.notFound db := by
  unfold submit_response
  rw [h]

/-- Claim C4: both parsers implement exactly the specification's
strategy — extract the substring from the first `{` to the last `}` and
decode it; whenever a `{` is absent, a `}` is absent, or the substring
fails decoding, the parse signals failure and the Fallback Provider's
output is returned (the source's `end_idx != -1` vacuity and the
evaluation parser's extra `end_idx > start_idx` guard change nothing:
in those corner cases the decoded slice is empty and decoding fails). -/
theorem c4_parsing_strategy (text : List Char) (category difficulty : String) :
    parseSimpleScenarioResponse text category difficulty
        = claimParseScenario text category difficulty
    ∧ parseSimpleEvaluationResponse text = claimParseEval text := by
  constructor
  · unfold parseSimpleScenarioResponse claimParseScenario scenarioJsonObject claimSpan
    cases hf : findIdx '\x7b' text with
    | none => rfl
    | some s =>
      cases hr : rfindIdx '\x7d' text with
      | none =>
        dsimp only
        rw [slice_end_zero, jsonDecode_nil]
      | some r =>
        dsimp only
        cases hd : jsonDecode (slice text s (r + 1)) with
        | none => rfl
        | some v => cases v <;> rfl
  · unfold parseSimpleEvaluationResponse claimParseEval evalJsonObject claimSpan
    cases hf : findIdx '\x7b' text with
    | none => rfl
    | some s =>
      cases hr : rfindIdx '\x7d' text with
      | none =>
        dsimp only
        rw [if_neg (Nat.not_lt_zero s)]
      | some r =>
        dsimp only
        by_cases hse : s < r + 1
        · rw [if_pos hse]
          cases hd : jsonDecode (slice text s (r + 1)) with
          | none => rfl
          | some v => cases v <;> rfl
        · rw [if_neg hse, slice_of_le text (Nat.le_of_not_lt hse), jsonDecode_nil]

/-- Claim C5: the Fallback Provider is pure and deterministic — the two
verbatim copies of the scenario fallback (module-level and method) agree
on every input, the two evaluation fallbacks are one fixed record, and
the scenario fallback equals a closed lookup table of its two arguments,
so repeated calls with identical arguments always produce identical
output. -/
theorem c5_fallback_deterministic (category difficulty : String) :
    get_simple_fallback_scenario category difficulty
        = lmStudioGetSimpleFallbackScenario category difficulty
    ∧ get_simple_fallback_evaluation = lmStudioGetSimpleFallbackEvaluation
    ∧ get_simple_fallback_scenario category difficulty =
        (if category == "emergency" then
          [("title", Json.str "Emergency Communication"),
           ("description",
            Json.str "Practice communicating with a patient in an emergency setting.")]
         else if category == "routine" then
          [("title", Json.str "Routine Check-up"),
           ("description",
            Json.str "Practice communication during a regular patient visit.")]
         else
          [("title", Json.str FALLBACK_SCENARIO_TITLE),
           ("description", Json.str FALLBACK_SCENARIO_DESCRIPTION)])
        ++ [("category", Json.str category), ("difficulty", Json.str difficulty)] := by
  refine ⟨rfl, rfl, ?_⟩
  unfold get_simple_fallback_scenario dictUpdate
  dsimp only
  split
  · rfl
  · split <;> rfl

/-- Claim C7, counterexample: the claim asserts acceptance exactly when
the trimmed length is 10–2000, but a text of 1991 spaces followed by 10
letters has trimmed length 10 and is nevertheless rejected, because
pydantic's `max_length=2000` is checked on the raw, untrimmed value. -/
theorem c7_counterexample :
    responseTextAccepted (List.replicate 1991 ' ' ++ "abcdefghij".toList) = false
    ∧ 10 ≤ (pyStrip (List.replicate 1991 ' ' ++ "abcdefghij".toList)).length
    ∧ (pyStrip (List.replicate 1991 ' ' ++ "abcdefghij".toList)).length ≤ 2000 := by
  have hstrip : pyStrip (List.replicate 1991 ' ' ++ "abcdefghij".toList)
      = pyStrip "abcdefghij".toList := by
    unfold pyStrip
    rw [dropWhile_replicate_space]
  have hs2 : pyStrip "abcdefghij".toList = "abcdefghij".toList := by rfl
  have hlen : (List.replicate 1991 ' ' ++ "abcdefghij".toList).length = 2001 := by
    rw [List.length_append, List.length_replicate]
    rfl
  refine ⟨?_, ?_, ?_⟩
  · unfold responseTextAccepted
    rw [hlen, hstrip, hs2]
    decide
  · rw [hstrip, hs2]
    decide
  · rw [hstrip, hs2]
    decide

/-- Claim C7, amended: a submission is accepted iff its trimmed text has
at least 10 characters and its raw (untrimmed) text has at most 2000
characters; in particular trimmed lengths 10 and 2000 are accepted and
9 and 2001 rejected whenever no surrounding whitespace is present, but
an in-range trimmed length does not guarantee acceptance when padding
pushes the raw length over 2000. -/
theorem c7_acceptance_iff (response_text : List Char) :
    responseTextAccepted response_text = true
      ↔ (10 ≤ (pyStrip response_text).length ∧ response_text.length ≤ 2000) := by
  unfold responseTextAccepted
  simp only [Bool.and_eq_true, decide_eq_true_eq]
  constructor
  · rintro ⟨⟨h1, h2⟩, h3⟩
    exact ⟨h3, h2⟩
  · rintro ⟨h1, h2⟩
    exact ⟨⟨le_trans h1 (pyStrip_length_le response_text), h2⟩, h1⟩

/-- Claim C7, witness: the amended acceptance criterion applied to the
concrete ten-character submission, which is accepted. -/
theorem c7_witness : responseTextAccepted "abcdefghij".toList = true :=
  (c7_acceptance_iff "abcdefghij".toList).mpr ⟨by decide, by decide⟩

/-- Claim C8: `submit_response` persists the response row carrying the
user's text before the evaluation step is consulted, so for every
evaluation outcome — success or any failure — the resulting store
contains a response row with the new id and the submitted text intact. -/
theorem c8_response_persisted (db : Db) (scenario_id response_text new_id : String)
    (ev : EvalStep)
    (h : (db.scenarios.find? (fun s => s.id == scenario_id)).isSome = true) :
    ∃ row db2,
      submit_response db scenario_id response_text new_id ev
          = SubmitOutcome.created row db2
      ∧ row.response_text = response_text
      ∧ ∃ r ∈ db2.responses, r.id = new_id ∧ r.response_text = response_text := by
  unfold submit_response
  cases hf : db.scenarios.find? (fun s => s.id == scenario_id) with
  | none => rw [hf] at h; exact absurd h (by decide)
  | some sc =>
    cases ev with
    | failed =>
      refine ⟨_, _, rfl, rfl,
        ⟨⟨new_id, scenario_id, response_text, none, none⟩, ?_, rfl, rfl⟩⟩
      simp
    | ok s f =>
      refine ⟨_, _, rfl, rfl,
        ⟨⟨new_id, scenario_id, response_text, some s, some f⟩, ?_, rfl, rfl⟩⟩
      simp


/-- Claim C8, witness: a concrete store holding one scenario, with the
evaluation step failing; the submitted text is still present in the
resulting store. -/
theorem c8_witness :
    ∃ row db2,
      submit_response ⟨[⟨"s1", "t", "d", "general", "beginner"⟩], []⟩ "s1"
          "I would calmly assess vitals and call for help." "r1" EvalStep.failed
          = SubmitOutcome.created row db2
      ∧ row.response_text = "I would calmly assess vitals and call for help."
      ∧ ∃ r ∈ db2.responses, r.id = "r1"
          ∧ r.response_text = "I would calmly assess vitals and call for help." :=
  c8_response_persisted ⟨[⟨"s1", "t", "d", "general", "beginner"⟩], []⟩ "s1"
    "I would calmly assess vitals and call for help." "r1" EvalStep.failed (by rfl)

/-- Claim C10, witness: submitting against an empty store returns the
404 outcome with the store unchanged. -/
theorem c10_witness :
    submit_response ⟨[], []⟩ "missing" "some response text" "r1" EvalStep.failed
        = SubmitOutcome.notFound ⟨[], []⟩ :=
  c10_unknown_scenario_404 ⟨[], []⟩ "missing" "some response text" "r1"
    EvalStep.failed (by rfl)

end LanguageBot
